import Mathlib

/-!
Shallow embedding of the request/response correlation layer of `rclrs`
(files `src/rclrs/src/node/client.rs` and `src/rclrs/src/node/service.rs`).

The transport (`rcl_send_request`, `rcl_take_response`, `rcl_take_request`,
`rcl_send_response`, `rcl_client_init`, `rcl_service_init`) is external C
code; each call site is modelled by an oracle record describing the return
code and the values the call writes into its output parameters.  Closures
stored in the pending-request table are modelled by opaque identifiers
(`Nat`); an invocation of such a closure is an observable effect in the
result of `execute`, and the `RclFuture` cell is likewise identified by a
`Nat` with its resolution observable as an effect.
-/

/-- Modelled from the spec: the error enum of `crate::error` is not among the
source files; only the variants matched in `client.rs` / `service.rs` are
structurally relevant (`ClientError(ClientTakeFailed)` and
`ServiceError(ServiceTakeFailed)`); every other return code is collapsed
into a catch-all constructor carrying its numeric code. -/
inductive ClientErrorCode where
  | ClientTakeFailed
  | otherClient (code : Int)
deriving DecidableEq, Repr

/-- Modelled from the spec: service-side error codes; only
`ServiceTakeFailed` is matched structurally in `service.rs`. -/
inductive ServiceErrorCode where
  | ServiceTakeFailed
  | otherService (code : Int)
deriving DecidableEq, Repr

/-- Modelled from the spec: the `RclReturnCode` error type returned by
`ToResult::ok()` on a non-success transport return value. -/
inductive RclReturnCode where
  | ClientError (c : ClientErrorCode)
  | ServiceError (s : ServiceErrorCode)
  | other (code : Int)
deriving DecidableEq, Repr

instance instDecEqExcept {ε α : Type} [DecidableEq ε] [DecidableEq α] :
    DecidableEq (Except ε α) := fun a b =>
  match a, b with
  | Except.error x, Except.error y =>
      if h : x = y then isTrue (congrArg Except.error h)
      else isFalse (fun hh => h (Except.error.inj hh))
  | Except.error _, Except.ok _ => isFalse (fun hh => Except.noConfusion hh)
  | Except.ok _, Except.error _ => isFalse (fun hh => Except.noConfusion hh)
  | Except.ok x, Except.ok y =>
      if h : x = y then isTrue (congrArg Except.ok h)
      else isFalse (fun hh => h (Except.ok.inj hh))

/-- `ret.ok()` of `crate::error::ToResult`: a transport call either succeeds
(`none`) or yields an error code; modelled as `Except`. -/
def toResultOk : Option RclReturnCode → Except RclReturnCode Unit
  | some e => Except.error e
  | none => Except.ok ()

/-- `rmw_request_id_t`: 16 writer-guid bytes plus a 64-bit sequence number
(`client.rs` lines 186-189, `service.rs` lines 107-110). -/
structure rmw_request_id_t where
  writer_guid : List Int
  sequence_number : Int
deriving DecidableEq, Repr

/-! ### Association-list model of `std::collections::HashMap`

`Client<T>` keeps two `HashMap<i64, _>` maps.  The embedding uses
association lists with the `HashMap` operations used by the source:
`contains_key`/lookup, `insert` (replacing any previous binding) and
`remove`. -/

/-- `HashMap::get` / `contains_key` lookup. -/
def lookupA {β : Type} : List (Int × β) → Int → Option β
  | [], _ => none
  | (k, v) :: rest, k' => if k = k' then some v else lookupA rest k'

/-- `HashMap::remove`: drop the binding of key `k'`. -/
def removeA {β : Type} : List (Int × β) → Int → List (Int × β)
  | [], _ => []
  | (k, v) :: rest, k' => if k = k' then removeA rest k' else (k, v) :: removeA rest k'

/-- `HashMap::insert`: bind `k` to `v`, replacing any previous binding. -/
def insertA {β : Type} (m : List (Int × β)) (k : Int) (v : β) : List (Int × β) :=
  (k, v) :: removeA m k

/-- The mutable state of one `Client<T>` (`client.rs` lines 45-53): the
callback map `requests`, the future map `futures` (closures and futures as
opaque identifiers) and the cached `sequence_number` atomic. -/
structure ClientState where
  requests : List (Int × Nat)
  futures : List (Int × Nat)
  sequence_number : Int
deriving DecidableEq, Repr

/-- Oracle for one `rcl_send_request` call: the return code and, when the
transport writes the assigned sequence number into its output parameter,
that value (`none` models a call that leaves the out-parameter untouched). -/
structure SendOracle where
  ret : Option RclReturnCode
  writes : Option Int
deriving DecidableEq, Repr

/-- One `rcl_send_request` call: given the value of the `sequence_number`
variable passed by pointer, returns the raw return code and the value the
variable holds after the call. -/
def rcl_send_request (seqIn : Int) (o : SendOracle) : Option RclReturnCode × Int :=
  (o.ret, match o.writes with
    | some v => v
    | none => seqIn)

/-- `Client::async_send_request_with_callback` (`client.rs` lines 107-129):
load the cached sequence number, call `rcl_send_request` on it, insert the
callback into `requests` keyed by the post-call value of the variable, swap
the cached counter to that value, and return `ret.ok()`.  The callback is
`cbId`; the serialized message does not influence control flow and is
omitted. -/
def Client.async_send_request_with_callback (st : ClientState) (cbId : Nat)
    (o : SendOracle) : Except RclReturnCode Unit × ClientState :=
  let sequence_number := st.sequence_number
  let (ret, sequence_number) := rcl_send_request sequence_number o
  let requests := insertA st.requests sequence_number cbId
  (toResultOk ret,
    { st with requests := requests, sequence_number := sequence_number })

/-- `Client::call_async` (`client.rs` lines 143-168): same send path, but a
fresh `RclFuture` (identified by `futId`) is inserted into `futures`; after
the counter swap, `ret.ok()?` propagates an error, else the future handle is
returned. -/
def Client.call_async (st : ClientState) (futId : Nat)
    (o : SendOracle) : Except RclReturnCode Nat × ClientState :=
  let sequence_number := st.sequence_number
  let (ret, sequence_number) := rcl_send_request sequence_number o
  let futures := insertA st.futures sequence_number futId
  let st' := { st with futures := futures, sequence_number := sequence_number }
  match toResultOk ret with
  | Except.error e => (Except.error e, st')
  | Except.ok () => (Except.ok futId, st')

/-- Oracle for one `rcl_take_response` / `rcl_take_request` call: the return
code and the values written into the message and request-id output
parameters (the deserialization `from_rmw_message` is the identity here, so
`Msg` is already the converted type). -/
structure TakeOracle (Msg : Type) where
  ret : Option RclReturnCode
  message : Msg
  req_id : rmw_request_id_t

/-- `Client::take_response` (`client.rs` lines 185-203): call
`rcl_take_response`, propagate a non-success code via `ret.ok()?`, otherwise
return the converted response together with the request id. -/
def Client.take_response {Res : Type} (o : TakeOracle Res) :
    Except RclReturnCode (Res × rmw_request_id_t) :=
  match o.ret with
  | some e => Except.error e
  | none => Except.ok (o.message, o.req_id)

/-- Observable effect of one `Client::execute` call on the stored closures:
nothing, one callback invoked with the taken response, or one future
resolved with it. -/
inductive ClientEffect (Res : Type) where
  | noEffect
  | callbackInvoked (cbId : Nat) (res : Res)
  | futureResolved (futId : Nat) (res : Res)
deriving DecidableEq, Repr

/-- `<Client<T> as ClientBase>::execute` (`client.rs` lines 214-234):
take one response; on `ClientError(ClientTakeFailed)` return `Ok(())`
(spurious wakeup) without touching the maps; on any other error return it;
on success look the taken sequence number up: a callback entry is removed
and invoked, else a future entry is removed and resolved, else the response
is dropped and `Ok(())` is returned. -/
def Client.execute {Res : Type} (st : ClientState) (o : TakeOracle Res) :
    Except RclReturnCode Unit × ClientState × ClientEffect Res :=
  match Client.take_response o with
  | Except.error (RclReturnCode.ClientError ClientErrorCode.ClientTakeFailed) =>
      (Except.ok (), st, ClientEffect.noEffect)
  | Except.error e => (Except.error e, st, ClientEffect.noEffect)
  | Except.ok (res, req_id) =>
      match lookupA st.requests req_id.sequence_number with
      | some cb =>
          (Except.ok (),
            { st with requests := removeA st.requests req_id.sequence_number },
            ClientEffect.callbackInvoked cb res)
      | none =>
          match lookupA st.futures req_id.sequence_number with
          | some f =>
              (Except.ok (),
                { st with futures := removeA st.futures req_id.sequence_number },
                ClientEffect.futureResolved f res)
          | none => (Except.ok (), st, ClientEffect.noEffect)

/-- `Service::take_request` (`service.rs` lines 106-124): call
`rcl_take_request`, propagate a non-success code via `ret.ok()?`, otherwise
return the converted request together with the request id. -/
def Service.take_request {Req : Type} (o : TakeOracle Req) :
    Except RclReturnCode (Req × rmw_request_id_t) :=
  match o.ret with
  | some e => Except.error e
  | none => Except.ok (o.message, o.req_id)

/-- `<Service<T> as ServiceBase>::execute` (`service.rs` lines 135-157):
take one request; on `ServiceError(ServiceTakeFailed)` return `Ok(())`
(spurious wakeup); on any other error return it; on success build the
default response, run the registered handler on
(request id, request, mutable response), then call `rcl_send_response` with
the same request id and the populated response, returning `ret.ok()`.
Result components: the returned `Result`, the log of handler invocations
(request id, request, response value handed to the handler), and the log of
`rcl_send_response` calls (request id, message sent). -/
def Service.execute {Req Res : Type} (defaultRes : Res)
    (handler : rmw_request_id_t → Req → Res → Res)
    (o : TakeOracle Req) (sendRet : Option RclReturnCode) :
    Except RclReturnCode Unit × List (rmw_request_id_t × Req × Res)
      × List (rmw_request_id_t × Res) :=
  match Service.take_request o with
  | Except.error (RclReturnCode.ServiceError ServiceErrorCode.ServiceTakeFailed) =>
      (Except.ok (), [], [])
  | Except.error e => (Except.error e, [], [])
  | Except.ok (req, req_id) =>
      let res := defaultRes
      let res' := handler req_id req res
      (toResultOk sendRet, [(req_id, req, res)], [(req_id, res')])

/-- Outcome of a Rust expression that may panic (`CString::new(..).unwrap()`). -/
inductive PanicOr (α : Type) where
  | panicked
  | value (a : α)
deriving DecidableEq, Repr

/-- `CString::new` over the topic's bytes: fails exactly when a NUL byte
occurs in the input, else appends the terminator. -/
def cstringNew (bytes : List Nat) : Option (List Nat) :=
  if bytes.contains 0 then none else some (bytes ++ [0])

/-- `Client::new` (`client.rs` lines 59-93): `CString::new(topic).unwrap()`
panics on a NUL byte; otherwise `rcl_client_init` runs and its error is
propagated by `ok()?`; on success the client starts with empty maps and
sequence number 0. -/
def Client.new (topic : List Nat) (initRet : Option RclReturnCode) :
    PanicOr (Except RclReturnCode ClientState) :=
  match cstringNew topic with
  | none => PanicOr.panicked
  | some _ =>
      match initRet with
      | some e => PanicOr.value (Except.error e)
      | none => PanicOr.value (Except.ok
          { requests := [], futures := [], sequence_number := 0 })

/-- `Service::new` (`service.rs` lines 56-89): same shape; the stored
callback has no observable structure at construction, so success carries
`Unit`. -/
def Service.new (topic : List Nat) (initRet : Option RclReturnCode) :
    PanicOr (Except RclReturnCode Unit) :=
  match cstringNew topic with
  | none => PanicOr.panicked
  | some _ =>
      match initRet with
      | some e => PanicOr.value (Except.error e)
      | none => PanicOr.value (Except.ok ())

/-! ### Helper lemmas about the map operations -/

theorem lookupA_removeA_self {β : Type} (m : List (Int × β)) (k : Int) :
    lookupA (removeA m k) k = none := by
  induction m with
  | nil => rfl
  | cons p rest ih =>
      obtain ⟨a, v⟩ := p
      by_cases h : a = k
      · simpa [removeA, h] using ih
      · simp [removeA, lookupA, h, ih]

theorem lookupA_removeA_ne {β : Type} (m : List (Int × β)) (k k' : Int)
    (h : k' ≠ k) : lookupA (removeA m k) k' = lookupA m k' := by
  induction m with
  | nil => rfl
  | cons p rest ih =>
      obtain ⟨a, v⟩ := p
      by_cases ha : a = k
      · have hak : a ≠ k' := by rw [ha]; exact fun hh => h hh.symm
        simp [removeA, lookupA, ha, hak, Ne.symm h, ih]
      · by_cases hb : a = k'
        · simp [removeA, lookupA, ha, hb, h]
        · simp [removeA, lookupA, ha, hb, ih]

theorem lookupA_insertA_self {β : Type} (m : List (Int × β)) (k : Int) (v : β) :
    lookupA (insertA m k v) k = some v := by
  simp [insertA, lookupA]

/-! ### Claim theorems -/

/-- Claim C1 (code bug): the claim states that when the transport send
fails, the error is returned **and** no pending entry is registered.  The
code does return the error, but it inserts the entry into the map before
checking the return code: evaluated at a failing send (error code 1,
transport-assigned sequence number 5) starting from a fresh client, the
callback path still records the entry `(5, 7)` in `requests` and the future
path still records `(5, 9)` in `futures`. -/
theorem C1_failed_send_still_registers_entry :
    Client.async_send_request_with_callback ⟨[], [], 0⟩ 7
        ⟨some (RclReturnCode.other 1), some 5⟩
      = (Except.error (RclReturnCode.other 1), ⟨[(5, 7)], [], 5⟩)
  ∧ Client.call_async ⟨[], [], 0⟩ 9 ⟨some (RclReturnCode.other 1), some 5⟩
      = (Except.error (RclReturnCode.other 1), ⟨[], [(5, 9)], 5⟩) :=
  ⟨rfl, rfl⟩

/-- Claim C2: a `ClientTakeFailed` (resp. `ServiceTakeFailed`) outcome of
the take during `execute()` yields `Ok(())` and, for the client, leaves both
maps untouched; every other transport error is returned unchanged from
`execute()` (with no handler run and nothing sent on the service side). -/
theorem C2_take_failed_benign_other_errors_propagate
    (st : ClientState) (res req defaultRes : Nat) (rid : rmw_request_id_t)
    (handler : rmw_request_id_t → Nat → Nat → Nat)
    (sendRet : Option RclReturnCode) (e e' : RclReturnCode)
    (hc : e ≠ RclReturnCode.ClientError ClientErrorCode.ClientTakeFailed)
    (hs : e' ≠ RclReturnCode.ServiceError ServiceErrorCode.ServiceTakeFailed) :
    Client.execute st
        ⟨some (RclReturnCode.ClientError ClientErrorCode.ClientTakeFailed), res, rid⟩
      = (Except.ok (), st, ClientEffect.noEffect)
  ∧ Client.execute st ⟨some e, res, rid⟩
      = (Except.error e, st, ClientEffect.noEffect)
  ∧ Service.execute defaultRes handler
        ⟨some (RclReturnCode.ServiceError ServiceErrorCode.ServiceTakeFailed), req, rid⟩
        sendRet
      = (Except.ok (), [], [])
  ∧ Service.execute defaultRes handler ⟨some e', req, rid⟩ sendRet
      = (Except.error e', [], []) := by
  refine ⟨rfl, ?_, rfl, ?_⟩
  · match e, hc with
    | RclReturnCode.ClientError ClientErrorCode.ClientTakeFailed, hc =>
        exact absurd rfl hc
    | RclReturnCode.ClientError (ClientErrorCode.otherClient c), _ => rfl
    | RclReturnCode.ServiceError s, _ => rfl
    | RclReturnCode.other c, _ => rfl
  · match e', hs with
    | RclReturnCode.ServiceError ServiceErrorCode.ServiceTakeFailed, hs =>
        exact absurd rfl hs
    | RclReturnCode.ServiceError (ServiceErrorCode.otherService c), _ => rfl
    | RclReturnCode.ClientError c, _ => rfl
    | RclReturnCode.other c, _ => rfl

theorem C2_take_failed_benign_witness :
    Client.execute ⟨[(1, 2)], [(3, 4)], 0⟩
        (⟨some (RclReturnCode.other 11), 0, ⟨[], 1⟩⟩ : TakeOracle Nat)
      = (Except.error (RclReturnCode.other 11), ⟨[(1, 2)], [(3, 4)], 0⟩,
         ClientEffect.noEffect) :=
  (C2_take_failed_benign_other_errors_propagate ⟨[(1, 2)], [(3, 4)], 0⟩ 0 0 0
      ⟨[], 1⟩ (fun _ _ r => r) none (RclReturnCode.other 11)
      (RclReturnCode.other 12) (by decide) (by decide)).2.1

/-- Claim C3: an entry stored under sequence number `s` (a callback, or a
future, the respective other map having no entry for `s`) is resolved at
most once: the first `execute` that takes a response carrying `s` removes
the entry in the same step that resolves it, and a second `execute` taking
another response carrying `s` finds no entry, drops the response, leaves
the state unchanged and returns success. -/
theorem C3_entry_resolved_at_most_once
    (st : ClientState) (s : Int) (cb f res1 res2 : Nat)
    (rid1 rid2 : rmw_request_id_t)
    (h1 : rid1.sequence_number = s) (h2 : rid2.sequence_number = s) :
    (lookupA st.requests s = some cb → lookupA st.futures s = none →
      Client.execute st ⟨none, res1, rid1⟩
          = (Except.ok (), { st with requests := removeA st.requests s },
             ClientEffect.callbackInvoked cb res1)
        ∧ Client.execute { st with requests := removeA st.requests s }
              ⟨none, res2, rid2⟩
          = (Except.ok (), { st with requests := removeA st.requests s },
             ClientEffect.noEffect))
  ∧ (lookupA st.requests s = none → lookupA st.futures s = some f →
      Client.execute st ⟨none, res1, rid1⟩
          = (Except.ok (), { st with futures := removeA st.futures s },
             ClientEffect.futureResolved f res1)
        ∧ Client.execute { st with futures := removeA st.futures s }
              ⟨none, res2, rid2⟩
          = (Except.ok (), { st with futures := removeA st.futures s },
             ClientEffect.noEffect)) := by
  subst h1
  constructor
  · intro hr hf
    constructor
    · simp [Client.execute, Client.take_response, hr]
    · simp [Client.execute, Client.take_response, h2, lookupA_removeA_self, hf]
  · intro hr hf
    constructor
    · simp [Client.execute, Client.take_response, hr, hf]
    · simp [Client.execute, Client.take_response, h2, lookupA_removeA_self, hr]

theorem C3_entry_resolved_at_most_once_witness :
    Client.execute ⟨[(5, 7)], [], 0⟩ (⟨none, 41, ⟨[], 5⟩⟩ : TakeOracle Nat)
        = (Except.ok (), ⟨[], [], 0⟩, ClientEffect.callbackInvoked 7 41)
      ∧ Client.execute ⟨[], [], 0⟩ (⟨none, 42, ⟨[], 5⟩⟩ : TakeOracle Nat)
        = (Except.ok (), ⟨[], [], 0⟩, ClientEffect.noEffect) :=
  (C3_entry_resolved_at_most_once ⟨[(5, 7)], [], 0⟩ 5 7 0 41 42 ⟨[], 5⟩ ⟨[], 5⟩
      rfl rfl).1 (by decide) (by decide)

/-- Claim C4: on a successful take during `Client::execute`, the taken
sequence number is dispatched exactly as: an existing callback entry is
removed and invoked with the response; otherwise an existing future entry is
removed and resolved with it; otherwise the response is dropped, the state
is untouched and `execute` still returns success. -/
theorem C4_dispatch_order
    (st : ClientState) (res : Nat) (rid : rmw_request_id_t) (cb f : Nat) :
    (lookupA st.requests rid.sequence_number = some cb →
      Client.execute st ⟨none, res, rid⟩
        = (Except.ok (),
           { st with requests := removeA st.requests rid.sequence_number },
           ClientEffect.callbackInvoked cb res))
  ∧ (lookupA st.requests rid.sequence_number = none →
     lookupA st.futures rid.sequence_number = some f →
      Client.execute st ⟨none, res, rid⟩
        = (Except.ok (),
           { st with futures := removeA st.futures rid.sequence_number },
           ClientEffect.futureResolved f res))
  ∧ (lookupA st.requests rid.sequence_number = none →
     lookupA st.futures rid.sequence_number = none →
      Client.execute st ⟨none, res, rid⟩
        = (Except.ok (), st, ClientEffect.noEffect)) := by
  refine ⟨fun hr => ?_, fun hr hf => ?_, fun hr hf => ?_⟩ <;>
    simp [Client.execute, Client.take_response, hr, *]

theorem C4_dispatch_order_witness :
    Client.execute ⟨[(5, 7)], [(5, 9)], 0⟩ (⟨none, 41, ⟨[], 5⟩⟩ : TakeOracle Nat)
        = (Except.ok (), ⟨[], [(5, 9)], 0⟩, ClientEffect.callbackInvoked 7 41)
      ∧ Client.execute ⟨[], [(5, 9)], 0⟩ (⟨none, 42, ⟨[], 5⟩⟩ : TakeOracle Nat)
        = (Except.ok (), ⟨[], [], 0⟩, ClientEffect.futureResolved 9 42)
      ∧ Client.execute ⟨[], [], 0⟩ (⟨none, 43, ⟨[], 5⟩⟩ : TakeOracle Nat)
        = (Except.ok (), ⟨[], [], 0⟩, ClientEffect.noEffect) :=
  ⟨(C4_dispatch_order ⟨[(5, 7)], [(5, 9)], 0⟩ 41 ⟨[], 5⟩ 7 9).1 (by decide),
   (C4_dispatch_order ⟨[], [(5, 9)], 0⟩ 42 ⟨[], 5⟩ 7 9).2.1 (by decide) (by decide),
   (C4_dispatch_order ⟨[], [], 0⟩ 43 ⟨[], 5⟩ 7 9).2.2 (by decide) (by decide)⟩

/-- Claim C5: for every taken request, `Service::execute` builds the
response type's default value, invokes the registered handler exactly once
with (request id, request, mutable response), and sends the
handler-populated response tagged with a request id identical to the one
produced by `take_request`; the result of `execute` is the result of that
send. -/
theorem C5_service_handler_once_same_request_id
    (Req Res : Type) (req : Req) (defaultRes : Res) (rid : rmw_request_id_t)
    (handler : rmw_request_id_t → Req → Res → Res)
    (sendRet : Option RclReturnCode) :
    Service.execute defaultRes handler ⟨none, req, rid⟩ sendRet
      = (toResultOk sendRet, [(rid, req, defaultRes)],
         [(rid, handler rid req defaultRes)]) := rfl

/-- Claim C6: delivering a response whose sequence number has no entry in
either map leaves the whole state unchanged (so every existing entry is
preserved), and an entry registered for another sequence number still
resolves correctly afterwards. -/
theorem C6_unmatched_drop_preserves_entries
    (st : ClientState) (res res1 : Nat) (rid rid1 : rmw_request_id_t)
    (cb1 : Nat)
    (hr : lookupA st.requests rid.sequence_number = none)
    (hf : lookupA st.futures rid.sequence_number = none) :
    Client.execute st ⟨none, res, rid⟩ = (Except.ok (), st, ClientEffect.noEffect)
  ∧ (lookupA st.requests rid1.sequence_number = some cb1 →
      Client.execute st ⟨none, res1, rid1⟩
        = (Except.ok (),
           { st with requests := removeA st.requests rid1.sequence_number },
           ClientEffect.callbackInvoked cb1 res1)) := by
  constructor
  · simp [Client.execute, Client.take_response, hr, hf]
  · intro h1
    simp [Client.execute, Client.take_response, h1]

theorem C6_unmatched_drop_preserves_entries_witness :
    Client.execute ⟨[(1, 10), (2, 20)], [], 0⟩ (⟨none, 99, ⟨[], 3⟩⟩ : TakeOracle Nat)
        = (Except.ok (), ⟨[(1, 10), (2, 20)], [], 0⟩, ClientEffect.noEffect)
      ∧ Client.execute ⟨[(1, 10), (2, 20)], [], 0⟩ (⟨none, 91, ⟨[], 1⟩⟩ : TakeOracle Nat)
        = (Except.ok (), ⟨[(2, 20)], [], 0⟩, ClientEffect.callbackInvoked 10 91) :=
  ⟨(C6_unmatched_drop_preserves_entries ⟨[(1, 10), (2, 20)], [], 0⟩ 99 91 ⟨[], 3⟩
      ⟨[], 1⟩ 10 (by decide) (by decide)).1,
   (C6_unmatched_drop_preserves_entries ⟨[(1, 10), (2, 20)], [], 0⟩ 99 91 ⟨[], 3⟩
      ⟨[], 1⟩ 10 (by decide) (by decide)).2 (by decide)⟩

/-- Claim C7: when the response send fails after the handler ran,
`Service::execute` returns that error while the handler invocation log still
records exactly one invocation and the send log records the attempted
(lost) response — the handler's run is not rolled back. -/
theorem C7_send_failure_after_handler_ran
    (Req Res : Type) (req : Req) (defaultRes : Res) (rid : rmw_request_id_t)
    (handler : rmw_request_id_t → Req → Res → Res) (e : RclReturnCode) :
    Service.execute defaultRes handler ⟨none, req, rid⟩ (some e)
      = (Except.error e, [(rid, req, defaultRes)],
         [(rid, handler rid req defaultRes)]) := rfl

/-- Claim C8: on either submission path, whenever the transport writes a
sequence number `v` into the send call's output parameter, the cached
counter afterwards holds exactly `v` (never an independently incremented
value) and the new pending entry is keyed by `v`, not by the value loaded
before the send. -/
theorem C8_counter_and_key_from_transport
    (st : ClientState) (cbId futId : Nat) (v : Int) (o : SendOracle)
    (h : o.writes = some v) :
    ((Client.async_send_request_with_callback st cbId o).2.sequence_number = v
      ∧ lookupA (Client.async_send_request_with_callback st cbId o).2.requests v
          = some cbId)
  ∧ ((Client.call_async st futId o).2.sequence_number = v
      ∧ lookupA (Client.call_async st futId o).2.futures v = some futId) := by
  obtain ⟨ret, writes⟩ := o
  simp only [SendOracle.writes] at h
  subst h
  cases ret <;>
    simp [Client.async_send_request_with_callback, Client.call_async,
      rcl_send_request, toResultOk, insertA, lookupA]

theorem C8_counter_and_key_from_transport_witness :
    ((Client.async_send_request_with_callback ⟨[], [], 0⟩ 7
          ⟨none, some 5⟩).2.sequence_number = 5
      ∧ lookupA (Client.async_send_request_with_callback ⟨[], [], 0⟩ 7
          ⟨none, some 5⟩).2.requests 5 = some 7)
  ∧ ((Client.call_async ⟨[], [], 0⟩ 9 ⟨none, some 5⟩).2.sequence_number = 5
      ∧ lookupA (Client.call_async ⟨[], [], 0⟩ 9 ⟨none, some 5⟩).2.futures 5
          = some 9) :=
  C8_counter_and_key_from_transport ⟨[], [], 0⟩ 7 9 5 ⟨none, some 5⟩ rfl

/-- Claim C9: `Client::new` and `Service::new` panic, via
`CString::new(topic).unwrap()`, exactly when the topic contains a NUL byte;
for every NUL-free topic, construction reaches the transport init call and
returns its success (a fresh client with empty maps and counter 0) or its
error. -/
theorem C9_nul_topic_panics_else_init_result
    (topic : List Nat) (initRet : Option RclReturnCode) :
    (topic.contains 0 = true →
      Client.new topic initRet = PanicOr.panicked
        ∧ Service.new topic initRet = PanicOr.panicked)
  ∧ (topic.contains 0 = false →
      Client.new topic initRet
          = PanicOr.value (match initRet with
              | some e => Except.error e
              | none => Except.ok
                  { requests := [], futures := [], sequence_number := 0 })
        ∧ Service.new topic initRet
          = PanicOr.value (match initRet with
              | some e => Except.error e
              | none => Except.ok ())) := by
  constructor
  · intro h
    simp at h
    constructor <;> simp [Client.new, Service.new, cstringNew, h]
  · intro h
    simp at h
    cases initRet <;> constructor <;>
      simp [Client.new, Service.new, cstringNew, h]

theorem C9_nul_topic_panics_witness :
    (Client.new [104, 0] none = PanicOr.panicked
      ∧ Service.new [104, 0] none = PanicOr.panicked)
  ∧ Client.new [104] (some (RclReturnCode.other 1))
      = PanicOr.value (Except.error (RclReturnCode.other 1)) :=
  ⟨(C9_nul_topic_panics_else_init_result [104, 0] none).1 (by decide),
   ((C9_nul_topic_panics_else_init_result [104]
        (some (RclReturnCode.other 1))).2 (by decide)).1⟩

/-- Claim C10: when a sequence number is present in both maps, `execute`
removes and invokes only the callback entry while the future entry stays in
the futures map unresolved; in general, resolving a callback entry never
modifies the futures map and resolving a future entry never modifies the
callback map. -/
theorem C10_callback_priority_maps_independent
    (st : ClientState) (res : Nat) (rid : rmw_request_id_t) (cb f : Nat) :
    (lookupA st.requests rid.sequence_number = some cb →
     lookupA st.futures rid.sequence_number = some f →
      (Client.execute st ⟨none, res, rid⟩).2.2
          = ClientEffect.callbackInvoked cb res
        ∧ lookupA (Client.execute st ⟨none, res, rid⟩).2.1.futures
            rid.sequence_number = some f)
  ∧ (lookupA st.requests rid.sequence_number = some cb →
      (Client.execute st ⟨none, res, rid⟩).2.1.futures = st.futures)
  ∧ (lookupA st.requests rid.sequence_number = none →
     lookupA st.futures rid.sequence_number = some f →
      (Client.execute st ⟨none, res, rid⟩).2.1.requests = st.requests) := by
  refine ⟨fun hr hf => ?_, fun hr => ?_, fun hr hf => ?_⟩ <;>
    simp [Client.execute, Client.take_response, hr, *]

theorem C10_callback_priority_witness :
    ((Client.execute ⟨[(5, 7)], [(5, 9)], 0⟩
          (⟨none, 41, ⟨[], 5⟩⟩ : TakeOracle Nat)).2.2
            = ClientEffect.callbackInvoked 7 41
      ∧ lookupA (Client.execute ⟨[(5, 7)], [(5, 9)], 0⟩
          (⟨none, 41, ⟨[], 5⟩⟩ : TakeOracle Nat)).2.1.futures 5 = some 9)
  ∧ (Client.execute ⟨[], [(5, 9)], 0⟩
        (⟨none, 42, ⟨[], 5⟩⟩ : TakeOracle Nat)).2.1.requests = [] :=
  ⟨(C10_callback_priority_maps_independent ⟨[(5, 7)], [(5, 9)], 0⟩ 41 ⟨[], 5⟩
      7 9).1 (by decide) (by decide),
   (C10_callback_priority_maps_independent ⟨[], [(5, 9)], 0⟩ 42 ⟨[], 5⟩
      7 9).2.2 (by decide) (by decide)⟩
